import Mathlib

/-!
# Verification of the leave-request form's date-selection and validation logic

Shallow embedding of `src/static/js/leave-form.js` (two concatenated script
documents: the form/attachment script and the calendar/date-handling script).

Dates clicked on the calendar are local-midnight `Date` values; we embed them
as integer day numbers (days since the Unix epoch), with `dateToMs` recovering
the millisecond timestamp the code does arithmetic on.  ISO `YYYY-MM-DD`
strings (used as keys of the advanced mode's `selectedDates` map) are embedded
as Lean `String`s.
-/

namespace LeaveForm

/-- Milliseconds per day, the `1000 * 60 * 60 * 24` constant of the source. -/
def msPerDay : Int := 1000 * 60 * 60 * 24

/-- A day number (days since epoch) as a millisecond timestamp (local midnight). -/
def dateToMs (d : Int) : Int := d * msPerDay

/-- Integer ceiling division: the `Math.ceil (a / b)` of the source for
integer `a` and positive `b`, as exact integer arithmetic. -/
def ceilDiv (a b : Int) : Int := -((-a) / b)

/-- The duration computation of the source
(`Math.ceil((end - start) / (1000*60*60*24)) + 1`), on millisecond
timestamps. -/
def durationMs (startMs endMs : Int) : Int := ceilDiv (endMs - startMs) msPerDay + 1

/-- Duration of a range given by day numbers, through the millisecond formula. -/
def durationDays (s e : Int) : Int := durationMs (dateToMs s) (dateToMs e)

/-- The simple (RANGE) mode's selection state: the `startDate` and `endDate`
variables of the calendar script (`null` embedded as `none`). -/
structure RangeState where
  startDate : Option Int
  endDate : Option Int
deriving DecidableEq, Repr

/-- The empty range selection (`startDate = endDate = null`). -/
def emptyRange : RangeState := ⟨none, none⟩

/-- The simple-mode form fields and display elements written by the range
handlers.  Displayed dates are abstracted to the date value rendered (`none`
for the placeholder prompt); `simpleDuration` is the hidden duration field. -/
structure SimpleFields where
  simpleDateInput : Option Int
  simpleEndDateInput : Option Int
  simpleDuration : Option Int
  simpleDateDisplay : Option Int
  simpleEndDateDisplay : Option Int
  simpleDurationDisplay : String
deriving DecidableEq, Repr

/-- Millisecond timestamp of an optional date; JavaScript coerces `null` to `0`
in the subtraction `end - start`. -/
def msOfOpt (d : Option Int) : Int :=
  match d with
  | some v => dateToMs v
  | none => 0

/-- The function `updateDateDisplay` of the calendar script: writes the date
inputs and displays; when `end` is present it also computes the duration
(`Math.ceil((end - start) / 86400000) + 1`) and writes the hidden
`simpleDuration` field; when `end` is absent the duration display shows `0`
and the hidden duration field is left untouched. -/
def updateDateDisplay (start end_ : Option Int) (f : SimpleFields) : SimpleFields :=
  let f1 :=
    match start with
    | some s => { f with simpleDateInput := some s, simpleDateDisplay := some s }
    | none => { f with simpleDateInput := none, simpleDateDisplay := none }
  match end_ with
  | some e =>
      let days := durationMs (msOfOpt start) (dateToMs e)
      { f1 with simpleEndDateInput := some e, simpleEndDateDisplay := some e,
                simpleDuration := some days, simpleDurationDisplay := toString days }
  | none =>
      { f1 with simpleEndDateInput := none, simpleEndDateDisplay := none,
                simpleDurationDisplay := "0" }

/-- The simple calendar's `dateClick` handler (calendar script): guard against
dates strictly before today, then either start a new range (first click) or
complete it swapping if the click is before the start (second click), writing
the inputs and calling `updateDateDisplay`. -/
def simpleDateClickFull (today clicked : Int) (s : RangeState) (f : SimpleFields) :
    RangeState × SimpleFields :=
  if clicked < today then (s, f)
  else
    match s.startDate, s.endDate with
    | some st, none =>
        let st' := if clicked < st then clicked else st
        let en' := if clicked < st then st else clicked
        let f1 := { f with simpleDateInput := some st', simpleEndDateInput := some en' }
        (⟨some st', some en'⟩, updateDateDisplay (some st') (some en') f1)
    | _, _ =>
        let f1 := { f with simpleEndDateInput := none, simpleDateInput := some clicked }
        (⟨some clicked, none⟩, updateDateDisplay (some clicked) none f1)

/-- The function `updateDateRange` of the form script: the standalone
range-selection implementation.  First click starts a new range, writes the
inputs and shows duration `1`; second click completes the range swapping if
needed, computes `Math.ceil((end - start)/86400000) + 1` and writes the hidden
`simpleDuration` field and the displays. -/
def updateDateRangeFull (selected : Int) (s : RangeState) (f : SimpleFields) :
    RangeState × SimpleFields :=
  match s.startDate, s.endDate with
  | some st, none =>
      let st' := if selected < st then selected else st
      let en' := if selected < st then st else selected
      let days := durationMs (dateToMs st') (dateToMs en')
      (⟨some st', some en'⟩,
        { f with simpleDateInput := some st', simpleEndDateInput := some en',
                 simpleDateDisplay := some st', simpleEndDateDisplay := some en',
                 simpleDuration := some days, simpleDurationDisplay := toString days })
  | _, _ =>
      (⟨some selected, none⟩,
        { f with simpleDateInput := some selected, simpleEndDateInput := none,
                 simpleDateDisplay := some selected, simpleEndDateDisplay := none,
                 simpleDurationDisplay := "1" })

/-- The advanced (SET) mode's selection state: the keys of the `selectedDates`
map of the calendar script, in insertion order. -/
structure SetState where
  selectedDates : List String
deriving DecidableEq, Repr

/-- The empty set selection. -/
def emptySet : SetState := ⟨[]⟩

/-- The advanced-mode elements written by `updateSelectedDatesDisplay`: the
hidden `#dates` form field, the rendered per-date list, and whether the
"no date selected" message is shown. -/
structure AdvFields where
  datesField : String
  listShown : List String
  noDateMsgShown : Bool
deriving DecidableEq, Repr

/-- The function `updateSelectedDatesDisplay` of the calendar script: sorts the map's
keys (JavaScript default string sort, i.e. lexicographic), joins them with
`';'` into `#dates`, rebuilds the per-date list, and toggles the
"no date selected" message on emptiness. -/
def updateSelectedDatesDisplay (s : SetState) (f : AdvFields) : AdvFields :=
  let datesList := List.insertionSort (fun a b : String => a ≤ b) s.selectedDates
  { f with datesField := String.intercalate ";" datesList,
           listShown := datesList,
           noDateMsgShown := datesList.isEmpty }

/-- The advanced calendar's `dateClick` handler (calendar script): if the
clicked `dateStr` is not yet a key of `selectedDates`, add it and refresh the
display; otherwise do nothing.  The handler performs no comparison against
today. -/
def advancedDateClickFull (dateStr : String) (s : SetState) (f : AdvFields) :
    SetState × AdvFields :=
  if dateStr ∈ s.selectedDates then (s, f)
  else
    let s' : SetState := ⟨s.selectedDates ++ [dateStr]⟩
    (s', updateSelectedDatesDisplay s' f)

/-- The global `window.removeDate` of the calendar script: delete the key from the
map and refresh the display. -/
def removeDateFull (dateStr : String) (s : SetState) (f : AdvFields) :
    SetState × AdvFields :=
  let s' : SetState := ⟨s.selectedDates.erase dateStr⟩
  (s', updateSelectedDatesDisplay s' f)

/-- The whole observable state the validators and the mode switch touch:
the mode flag (`#modeSwitch .checked`), both selection states, both field
groups, the form controls the validators read (`#leaveType`, notes,
`#simpleDatePicker`), and the disabled flags the validators write. -/
structure AppState where
  modeAdvanced : Bool
  range : RangeState
  setSel : SetState
  simpleFields : SimpleFields
  advFields : AdvFields
  leaveType : String
  notes : String
  simpleDatePicker : String
  submitDisabled : Bool
  notesDisabled : Bool
deriving DecidableEq, Repr

/-- The calendar script's inner `validateForm()` (the button-enable
recompute): `hasValidDates` is `selectedDates.size > 0` in advanced mode and
`startDate && endDate` in simple mode; the submit button is disabled iff the
leave type is empty or the dates are not valid. -/
def validateFormEnable (st : AppState) : AppState :=
  let hasValidDates :=
    if st.modeAdvanced then !st.setSel.selectedDates.isEmpty
    else st.range.startDate.isSome && st.range.endDate.isSome
  { st with submitDisabled := (st.leaveType == "") || !hasValidDates }

/-- The function `validateLeaveType` of the form script: enables or disables both the
submit button and the notes input according to whether a leave type is
selected. -/
def validateLeaveType (st : AppState) : AppState :=
  if st.leaveType == "" then { st with submitDisabled := true, notesDisabled := true }
  else { st with submitDisabled := false, notesDisabled := false }

/-- The `#modeSwitch` change handler of the calendar script: the handler runs
after the checkbox has flipped and reads the new value.  Switching into
advanced (SET) mode runs `clearDateSelection()` (clearing the range state and
its displays); switching into simple (RANGE) mode runs
`selectedDates.clear()` and refreshes the advanced display; then the inner
`validateForm()` runs. -/
def modeSwitchToggle (st : AppState) : AppState :=
  let checked := !st.modeAdvanced
  let st1 := { st with modeAdvanced := checked }
  if checked then
    validateFormEnable
      { st1 with range := ⟨none, none⟩,
                 simpleFields := updateDateDisplay none none st1.simpleFields }
  else
    validateFormEnable
      { st1 with setSel := emptySet,
                 advFields := updateSelectedDatesDisplay emptySet st1.advFields }

/-- Result of the form script's global `validateForm(event)` submit handler:
either the submission proceeds, or it is blocked with the alert message
shown. -/
inductive SubmitResult where
  | blocked (msg : String)
  | proceed
deriving DecidableEq, Repr

/-- The form script's global `validateForm(event)` submit handler: checks the
leave type, then the mode-appropriate date field (`#datesList` in advanced
mode, `#simpleDatePicker` in simple mode), then the trimmed notes; the first
failing check blocks submission with its alert.  The handler writes no stored
state, so the state is returned unchanged. -/
def validateFormSubmit (st : AppState) : SubmitResult × AppState :=
  if st.leaveType == "" then (.blocked "Please select a leave type", st)
  else if st.modeAdvanced then
    if st.advFields.datesField == "" then
      (.blocked "Please select at least one date in advanced mode", st)
    else if st.notes.trim == "" then
      (.blocked "Please enter a reason for your leave", st)
    else (.proceed, st)
  else
    if st.simpleDatePicker == "" then (.blocked "Please select a date", st)
    else if st.notes.trim == "" then
      (.blocked "Please enter a reason for your leave", st)
    else (.proceed, st)

/-- A chosen file as the attachment handler sees it: `name`, `size` in bytes,
and the declared content type. -/
structure FileInfo where
  name : String
  size : Nat
  mimeType : String
deriving DecidableEq, Repr

/-- Extension extraction, the `file.name.split(...).pop().toLowerCase()` of
the source, splitting at dots: the substring after the last dot (the whole
name when there is no dot), lower-cased. -/
def extOf (name : String) : String :=
  String.map Char.toLower (List.getLastD (name.splitOn ".") "")

/-- Outcome of the synchronous part of the attachment `change` handler:
which alert (if any) was shown, whether the input was cleared, whether the
preview area was set to the loading spinner, and whether an asynchronous
`FileReader` read was started (both happen only inside
`createFilePreview`). -/
structure AttachResult where
  alertMsg : Option String
  inputCleared : Bool
  previewLoading : Bool
  readStarted : Bool
deriving DecidableEq, Repr

/-- The `#attachmentInput` change handler of the form script: reject when
`'.' + ext` is not among `['.pdf', '.png', '.jpg', '.jpeg', '.gif', '.bmp']`
(alert, clear the input, return), then reject when `size > 10 * 1024 * 1024`
(alert, clear the input, return); otherwise call `createFilePreview`, which
sets the spinner and starts the asynchronous read. -/
def attachmentChange (file : FileInfo) : AttachResult :=
  let ext := extOf file.name
  if ("." ++ ext) ∉ [".pdf", ".png", ".jpg", ".jpeg", ".gif", ".bmp"] then
    { alertMsg := some "Invalid file type. Please upload a PDF or image file.",
      inputCleared := true, previewLoading := false, readStarted := false }
  else if file.size > 10 * 1024 * 1024 then
    { alertMsg := some "File is too large. Maximum size is 10MB.",
      inputCleared := true, previewLoading := false, readStarted := false }
  else
    { alertMsg := none, inputCleared := false, previewLoading := true,
      readStarted := true }

end LeaveForm

namespace LeaveForm

/-- Field record with nothing filled in (the page's initial state). -/
def blankFields : SimpleFields := ⟨none, none, none, none, none, "0"⟩

/-- Advanced-mode field record with nothing filled in. -/
def advBlank : AdvFields := ⟨"", [], true⟩

/-- One step of the simple calendar's `dateClick` handler applied to a
state/fields pair. -/
def simpleStep (today : Int) (p : RangeState × SimpleFields) (c : Int) :
    RangeState × SimpleFields :=
  simpleDateClickFull today c p.1 p.2

/-- One step of the standalone `updateDateRange` applied to a state/fields
pair. -/
def rangeStep (p : RangeState × SimpleFields) (c : Int) : RangeState × SimpleFields :=
  updateDateRangeFull c p.1 p.2

theorem trim_empty : ("" : String).trim = "" := by
  unfold String.trim Substring.trim String.toSubstring
  unfold Substring.takeWhileAux Substring.takeRightWhileAux
  simp [Substring.toString, String.extract]

theorem durationDays_eq (s e : Int) : durationDays s e = e - s + 1 := by
  unfold durationDays durationMs ceilDiv dateToMs msPerDay
  have hne : ((1000 * 60 * 60 * 24 : Int)) ≠ 0 := by decide
  have h : -(e * (1000 * 60 * 60 * 24) - s * (1000 * 60 * 60 * 24)) =
      (s - e) * (1000 * 60 * 60 * 24) := by ring
  rw [h, Int.mul_ediv_cancel _ hne]
  ring

/-- C4: for dates `d1 < d2`, both not before today, starting from the empty
range, clicking `d1` then `d2` in RANGE mode yields `{start: d1, end: d2}`,
and clicking `d2` then `d1` yields the same `{start: d1, end: d2}` (the swap
rule makes the result order-independent). -/
theorem c4_swap_invariant (today d1 d2 : Int) (f : SimpleFields)
    (h1 : today ≤ d1) (h2 : today ≤ d2) (h12 : d1 < d2) :
    ([d1, d2].foldl (simpleStep today) (emptyRange, f)).1 = ⟨some d1, some d2⟩ ∧
    ([d2, d1].foldl (simpleStep today) (emptyRange, f)).1 = ⟨some d1, some d2⟩ := by
  have hn1 : ¬ d1 < today := not_lt.mpr h1
  have hn2 : ¬ d2 < today := not_lt.mpr h2
  have hn21 : ¬ d2 < d1 := not_lt.mpr (le_of_lt h12)
  constructor <;>
    simp [simpleStep, simpleDateClickFull, emptyRange, hn1, hn2, hn21, h12]

/-- C4 witness: concrete instance with today `0`, `d1 = 1`, `d2 = 2`. -/
theorem c4_swap_invariant_witness :
    ([1, 2].foldl (simpleStep 0) (emptyRange, blankFields)).1 = ⟨some 1, some 2⟩ ∧
    ([2, 1].foldl (simpleStep 0) (emptyRange, blankFields)).1 = ⟨some 1, some 2⟩ :=
  c4_swap_invariant 0 1 2 blankFields (by decide) (by decide) (by decide)

/-- C5: the duration computed for a completed range (the
`Math.ceil((end - start)/86400000) + 1` of the source, on midnight-aligned
dates) is the inclusive whole-day count, day-difference plus one; for the
range 2024-01-01 (day 19723) to 2024-01-05 (day 19727) it is `5`; and
clicking the same date twice yields the single-day range with hidden
duration field `1`. -/
theorem c5_duration_inclusive :
    (∀ s e : Int, durationDays s e = e - s + 1) ∧
    durationDays 19723 19727 = 5 ∧
    (([7, 7].foldl (simpleStep 0) (emptyRange, blankFields)).1 =
        RangeState.mk (some 7) (some 7) ∧
      ([7, 7].foldl (simpleStep 0) (emptyRange, blankFields)).2.simpleDuration = some 1) := by
  refine ⟨durationDays_eq, by rw [durationDays_eq]; norm_num, ?_, ?_⟩ <;> decide

theorem step_rel (today c : Int) (hc : today ≤ c) (p q : RangeState × SimpleFields)
    (h1 : p.1 = q.1) (h2 : p.2.simpleDuration = q.2.simpleDuration) :
    (rangeStep p c).1 = (simpleStep today q c).1 ∧
    (rangeStep p c).2.simpleDuration = (simpleStep today q c).2.simpleDuration := by
  obtain ⟨ps, pf⟩ := p
  obtain ⟨qs, qf⟩ := q
  simp only at h1 h2
  subst h1
  have hnc : ¬ c < today := not_lt.mpr hc
  obtain ⟨os, oe⟩ := ps
  unfold rangeStep simpleStep updateDateRangeFull simpleDateClickFull
  cases os <;> cases oe <;> simp [hnc, updateDateDisplay, msOfOpt, h2]

theorem fold_rel (today : Int) (clicks : List Int) (h : ∀ c ∈ clicks, today ≤ c)
    (p q : RangeState × SimpleFields) (h1 : p.1 = q.1)
    (h2 : p.2.simpleDuration = q.2.simpleDuration) :
    (clicks.foldl rangeStep p).1 = (clicks.foldl (simpleStep today) q).1 ∧
    (clicks.foldl rangeStep p).2.simpleDuration =
      (clicks.foldl (simpleStep today) q).2.simpleDuration := by
  induction clicks generalizing p q with
  | nil => exact ⟨h1, h2⟩
  | cons c cs ih =>
      have hc : today ≤ c := h c (by simp)
      have hs := step_rel today c hc p q h1 h2
      exact ih (fun x hx => h x (by simp [hx])) _ _ hs.1 hs.2

/-- C10: for every sequence of clicks on dates not before today, the
standalone `updateDateRange` of the form script and the simple calendar's
`dateClick` handler produce the same `startDate`/`endDate` state after every
prefix and leave the same value in the hidden `simpleDuration` field. -/
theorem c10_range_implementations_equivalent (today : Int) (clicks : List Int)
    (s : RangeState) (f : SimpleFields) (h : ∀ c ∈ clicks, today ≤ c) :
    (clicks.foldl rangeStep (s, f)).1 = (clicks.foldl (simpleStep today) (s, f)).1 ∧
    (clicks.foldl rangeStep (s, f)).2.simpleDuration =
      (clicks.foldl (simpleStep today) (s, f)).2.simpleDuration :=
  fold_rel today clicks h (s, f) (s, f) rfl rfl

/-- C10 witness: the two implementations agree on the concrete click
sequence `[5, 3]` with today `0`. -/
theorem c10_range_implementations_equivalent_witness :
    ([5, 3].foldl rangeStep (emptyRange, blankFields)).1 =
      ([5, 3].foldl (simpleStep 0) (emptyRange, blankFields)).1 ∧
    ([5, 3].foldl rangeStep (emptyRange, blankFields)).2.simpleDuration =
      ([5, 3].foldl (simpleStep 0) (emptyRange, blankFields)).2.simpleDuration :=
  c10_range_implementations_equivalent 0 [5, 3] emptyRange blankFields (by decide)

/-- C3 counterexample: with today 2024-06-15, a SET-mode click on 2024-06-14
(strictly before today, ISO strings ordered lexicographically, which agrees
with chronological order) is not ignored: the advanced calendar's `dateClick`
handler adds it to the selection and writes the hidden dates field. -/
theorem c3_past_click_counterexample :
    ("2024-06-14" : String) < "2024-06-15" ∧
    (advancedDateClickFull "2024-06-14" emptySet advBlank).1 =
      SetState.mk ["2024-06-14"] ∧
    (advancedDateClickFull "2024-06-14" emptySet advBlank).2.datesField =
      "2024-06-14" := by
  refine ⟨by simp only [String.lt_iff_toList_lt]; decide, by decide, by decide⟩

/-- C3 amended: in RANGE mode the simple calendar's `dateClick` handler
ignores clicks on dates strictly before today (no state and no field
changes); in SET mode the advanced calendar's `dateClick` handler performs no
past-date check, so a click on any date not already selected — even one
strictly before today — changes the selection. -/
theorem c3_past_click_amended :
    (∀ (today clicked : Int) (s : RangeState) (f : SimpleFields),
        clicked < today → simpleDateClickFull today clicked s f = (s, f)) ∧
    (∀ (todayStr dateStr : String) (s : SetState) (f : AdvFields),
        dateStr < todayStr → dateStr ∉ s.selectedDates →
        (advancedDateClickFull dateStr s f).1 ≠ s) := by
  constructor
  · intro today clicked s f h
    simp [simpleDateClickFull, h]
  · intro todayStr dateStr s f _ hmem heq
    have : (advancedDateClickFull dateStr s f).1.selectedDates = s.selectedDates :=
      congrArg SetState.selectedDates heq
    simp [advancedDateClickFull, hmem] at this

/-- C3 amended witness: a past click (5 with today 10) leaves the range
machine untouched, and the advanced handler mutates on a past date. -/
theorem c3_past_click_amended_witness :
    simpleDateClickFull 10 5 emptyRange blankFields = (emptyRange, blankFields) ∧
    (advancedDateClickFull "2024-06-14" emptySet advBlank).1 ≠ emptySet :=
  ⟨c3_past_click_amended.1 10 5 emptyRange blankFields (by decide),
   c3_past_click_amended.2 "2024-06-15" "2024-06-14" emptySet advBlank
     (by simp only [String.lt_iff_toList_lt]; decide) (by decide)⟩

/-- The value `updateSelectedDatesDisplay` writes into the hidden `#dates`
field: the lexicographically sorted keys joined with `';'`. -/
def datesFieldSpec (s : SetState) : String :=
  String.intercalate ";" (List.insertionSort (fun a b : String => a ≤ b) s.selectedDates)

/-- The C8 invariant: the selection holds no duplicates and the hidden dates
field holds the ascending-sorted, `';'`-joined selection. -/
def setInv (s : SetState) (f : AdvFields) : Prop :=
  s.selectedDates.Nodup ∧ f.datesField = datesFieldSpec s

/-- C8: every SET-mode operation — the advanced calendar's `dateClick` add,
`removeDate`, and the clearing performed by the mode switch — preserves the
invariant that the selection is duplicate-free and the hidden `#dates` field
is the ascending-sorted `';'`-joined list of the selected ISO date strings;
moreover the serialized list is sorted and is a permutation of the distinct
selected dates. -/
theorem c8_dates_field_invariant (d : String) (s : SetState) (f : AdvFields)
    (h : setInv s f) :
    setInv (advancedDateClickFull d s f).1 (advancedDateClickFull d s f).2 ∧
    setInv (removeDateFull d s f).1 (removeDateFull d s f).2 ∧
    (∀ st : AppState, setInv st.setSel st.advFields →
      setInv (modeSwitchToggle st).setSel (modeSwitchToggle st).advFields) ∧
    (List.insertionSort (fun a b : String => a ≤ b)
        (advancedDateClickFull d s f).1.selectedDates).Sorted (· ≤ ·) ∧
    List.Perm
      (List.insertionSort (fun a b : String => a ≤ b)
        (advancedDateClickFull d s f).1.selectedDates)
      (advancedDateClickFull d s f).1.selectedDates := by
  obtain ⟨hnd, hfield⟩ := h
  refine ⟨?_, ?_, ?_, List.sorted_insertionSort _ _, List.perm_insertionSort _ _⟩
  · by_cases hmem : d ∈ s.selectedDates
    · simpa [advancedDateClickFull, hmem] using ⟨hnd, hfield⟩
    · constructor
      · simp [advancedDateClickFull, hmem, List.nodup_append, hnd]
      · simp [advancedDateClickFull, hmem, updateSelectedDatesDisplay, datesFieldSpec]
  · constructor
    · simp [removeDateFull, hnd.erase d]
    · simp [removeDateFull, updateSelectedDatesDisplay, datesFieldSpec]
  · intro st hst
    by_cases hmode : st.modeAdvanced
    · simp [modeSwitchToggle, hmode, validateFormEnable, updateSelectedDatesDisplay,
        setInv, emptySet, datesFieldSpec]
    · simpa [modeSwitchToggle, hmode, validateFormEnable] using hst

/-- C8 witness: the invariant holds for the one-element selection
`["2024-06-20"]` and is preserved by adding `"2024-06-21"`. -/
theorem c8_dates_field_invariant_witness :
    setInv ⟨["2024-06-20"]⟩ ⟨"2024-06-20", ["2024-06-20"], false⟩ ∧
    setInv
      (advancedDateClickFull "2024-06-21" ⟨["2024-06-20"]⟩
        ⟨"2024-06-20", ["2024-06-20"], false⟩).1
      (advancedDateClickFull "2024-06-21" ⟨["2024-06-20"]⟩
        ⟨"2024-06-20", ["2024-06-20"], false⟩).2 :=
  ⟨⟨by decide, by decide⟩,
   (c8_dates_field_invariant "2024-06-21" ⟨["2024-06-20"]⟩
      ⟨"2024-06-20", ["2024-06-20"], false⟩ ⟨by decide, by decide⟩).1⟩

/-- A concrete state in simple (RANGE) mode with a completed range and an
empty set selection. -/
def stRangeChosen : AppState :=
  { modeAdvanced := false, range := ⟨some 19900, some 19904⟩, setSel := emptySet,
    simpleFields := blankFields, advFields := advBlank, leaveType := "Annual",
    notes := "", simpleDatePicker := "2024-06-20", submitDisabled := false,
    notesDisabled := false }

/-- C1 counterexample: from a state with a completed range selection,
toggling the mode switch (into SET mode) clears the range selection — it is
not left unchanged — and toggling twice does not restore it. -/
theorem c1_mode_switch_counterexample :
    (modeSwitchToggle stRangeChosen).range ≠ stRangeChosen.range ∧
    (modeSwitchToggle (modeSwitchToggle stRangeChosen)).range ≠
      stRangeChosen.range := by
  refine ⟨by decide, by decide⟩

/-- C1 amended: toggling the mode switch flips the mode, clears the selection
of the mode being left and preserves the selection of the mode being entered;
toggling twice in a row therefore leaves both selections empty rather than
unchanged. -/
theorem c1_mode_switch_amended (st : AppState) :
    (modeSwitchToggle st).modeAdvanced = !st.modeAdvanced ∧
    (modeSwitchToggle st).range = (if st.modeAdvanced then st.range else emptyRange) ∧
    (modeSwitchToggle st).setSel = (if st.modeAdvanced then emptySet else st.setSel) ∧
    (modeSwitchToggle (modeSwitchToggle st)).range = emptyRange ∧
    (modeSwitchToggle (modeSwitchToggle st)).setSel = emptySet := by
  cases hm : st.modeAdvanced <;>
    simp [modeSwitchToggle, validateFormEnable, hm, emptyRange, emptySet]

/-- C2 counterexample: with a leave type selected, a completed range and
empty notes, the button-enable recompute leaves the submit button enabled,
although the notes are empty after trimming (and the claim requires it
disabled then). -/
theorem c2_enable_counterexample :
    (validateFormEnable stRangeChosen).submitDisabled = false ∧
    stRangeChosen.notes.trim = "" := by
  refine ⟨by decide, ?_⟩
  show ("" : String).trim = ""
  exact trim_empty

/-- C2 amended: the submit control is enabled iff a leave type is selected
and the date selection is valid for the current mode (set non-empty in SET
mode; both start and end present in RANGE mode); the notes text has no
influence on the enabled state (and the attachment is never consulted). -/
theorem c2_enable_amended (st : AppState) :
    ((validateFormEnable st).submitDisabled = false ↔
      (st.leaveType ≠ "" ∧
        (if st.modeAdvanced then st.setSel.selectedDates ≠ []
         else st.range.startDate.isSome ∧ st.range.endDate.isSome))) ∧
    (∀ n : String,
      (validateFormEnable { st with notes := n }).submitDisabled =
        (validateFormEnable st).submitDisabled) := by
  constructor
  · cases hm : st.modeAdvanced <;>
      simp [validateFormEnable, hm, List.isEmpty_iff, and_assoc]
  · intro n
    cases hm : st.modeAdvanced <;> simp [validateFormEnable, hm]

/-- A concrete state with no leave type selected and the notes input
enabled. -/
def stNoLeaveType : AppState :=
  { modeAdvanced := false, range := emptyRange, setSel := emptySet,
    simpleFields := blankFields, advFields := advBlank, leaveType := "",
    notes := "", simpleDatePicker := "", submitDisabled := false,
    notesDisabled := false }

/-- C9 counterexample: on a leave-type change the recompute that runs is
`validateLeaveType`, and with no leave type selected it disables the notes
input — an observable effect on an element other than the submit control. -/
theorem c9_frame_counterexample :
    (validateLeaveType stNoLeaveType).notesDisabled ≠ stNoLeaveType.notesDisabled := by
  decide

/-- C9 amended: the calendar script's button-enable `validateForm` recompute
touches only the submit control's disabled state, but the form script's
`validateLeaveType` (run on leave-type change) additionally toggles the notes
input's disabled state; everything else is left unchanged by both. -/
theorem c9_frame_amended (st : AppState) :
    ((validateFormEnable st).modeAdvanced = st.modeAdvanced ∧
     (validateFormEnable st).range = st.range ∧
     (validateFormEnable st).setSel = st.setSel ∧
     (validateFormEnable st).simpleFields = st.simpleFields ∧
     (validateFormEnable st).advFields = st.advFields ∧
     (validateFormEnable st).leaveType = st.leaveType ∧
     (validateFormEnable st).notes = st.notes ∧
     (validateFormEnable st).simpleDatePicker = st.simpleDatePicker ∧
     (validateFormEnable st).notesDisabled = st.notesDisabled) ∧
    ((validateLeaveType st).modeAdvanced = st.modeAdvanced ∧
     (validateLeaveType st).range = st.range ∧
     (validateLeaveType st).setSel = st.setSel ∧
     (validateLeaveType st).simpleFields = st.simpleFields ∧
     (validateLeaveType st).advFields = st.advFields ∧
     (validateLeaveType st).leaveType = st.leaveType ∧
     (validateLeaveType st).notes = st.notes ∧
     (validateLeaveType st).simpleDatePicker = st.simpleDatePicker) ∧
    ((validateLeaveType st).notesDisabled = (st.leaveType == "")) := by
  refine ⟨?_, ?_⟩
  · simp [validateFormEnable]
  · unfold validateLeaveType
    split <;> simp_all

/-- C6: whenever a validation condition fails — no leave type, no date in the
field the current mode checks, or notes empty after trimming — the submit
handler blocks the submission with an alert and leaves every piece of stored
state unchanged. -/
theorem c6_submit_blocked_state_unchanged (st : AppState)
    (h : st.leaveType = "" ∨ (st.modeAdvanced = true ∧ st.advFields.datesField = "") ∨
         (st.modeAdvanced = false ∧ st.simpleDatePicker = "") ∨ st.notes.trim = "") :
    (∃ msg, (validateFormSubmit st).1 = SubmitResult.blocked msg) ∧
    (validateFormSubmit st).2 = st := by
  refine ⟨?_, by unfold validateFormSubmit; split_ifs <;> rfl⟩
  unfold validateFormSubmit
  split_ifs <;> first
    | exact ⟨_, rfl⟩
    | (exfalso; rcases h with h | ⟨hm, hd⟩ | ⟨hm, hd⟩ | hn <;> simp_all)

/-- A concrete submission state: leave type selected, a simple-mode date
present, but notes empty. -/
def stEmptyNotes : AppState :=
  { modeAdvanced := false, range := ⟨some 19900, some 19904⟩, setSel := emptySet,
    simpleFields := blankFields, advFields := advBlank, leaveType := "Annual",
    notes := "", simpleDatePicker := "2024-06-20", submitDisabled := false,
    notesDisabled := false }

/-- C6 witness: submitting with a leave type and a date chosen but empty
notes is blocked and the state is unchanged. -/
theorem c6_submit_blocked_state_unchanged_witness :
    (∃ msg, (validateFormSubmit stEmptyNotes).1 = SubmitResult.blocked msg) ∧
    (validateFormSubmit stEmptyNotes).2 = stEmptyNotes :=
  c6_submit_blocked_state_unchanged stEmptyNotes
    (Or.inr (Or.inr (Or.inr (show ("" : String).trim = "" from trim_empty))))

theorem dot_append_inj {a b : String} (h : "." ++ a = "." ++ b) : a = b := by
  have hd := congrArg String.data h
  simp only [String.data_append] at hd
  exact String.ext (List.append_cancel_left hd)

theorem mem_dotted {e : String}
    (h : ("." ++ e) ∈ ([".pdf", ".png", ".jpg", ".jpeg", ".gif", ".bmp"] : List String)) :
    e ∈ (["pdf", "png", "jpg", "jpeg", "gif", "bmp"] : List String) := by
  simp only [List.mem_cons, List.not_mem_nil, or_false] at h ⊢
  rcases h with h | h | h | h | h | h
  · exact Or.inl (dot_append_inj (b := "pdf") h)
  · exact Or.inr (Or.inl (dot_append_inj (b := "png") h))
  · exact Or.inr (Or.inr (Or.inl (dot_append_inj (b := "jpg") h)))
  · exact Or.inr (Or.inr (Or.inr (Or.inl (dot_append_inj (b := "jpeg") h))))
  · exact Or.inr (Or.inr (Or.inr (Or.inr (Or.inl (dot_append_inj (b := "gif") h)))))
  · exact Or.inr (Or.inr (Or.inr (Or.inr (Or.inr (dot_append_inj (b := "bmp") h)))))

/-- C7: a chosen file whose lower-cased extension is outside
`{pdf, png, jpg, jpeg, gif, bmp}` or whose size exceeds 10,485,760 bytes is
rejected synchronously by the attachment change handler: an alert is shown,
the input is cleared, no asynchronous read is started, and the preview is
never set to the loading spinner. -/
theorem c7_attachment_rejected (file : FileInfo)
    (h : extOf file.name ∉ (["pdf", "png", "jpg", "jpeg", "gif", "bmp"] : List String) ∨
         file.size > 10485760) :
    (attachmentChange file).alertMsg.isSome = true ∧
    (attachmentChange file).inputCleared = true ∧
    (attachmentChange file).readStarted = false ∧
    (attachmentChange file).previewLoading = false := by
  by_cases h1 : ("." ++ extOf file.name) ∈
      ([".pdf", ".png", ".jpg", ".jpeg", ".gif", ".bmp"] : List String)
  · have hsize : file.size > 10485760 := by
      rcases h with h | h
      · exact absurd (mem_dotted h1) h
      · exact h
    simp [attachmentChange, h1, show 10 * 1024 * 1024 < file.size by omega]
  · simp [attachmentChange, h1]

/-- C7 witness: an 11 MiB PDF (11534336 bytes) is rejected with no read
started and no loading preview. -/
theorem c7_attachment_rejected_witness :
    (attachmentChange ⟨"report.pdf", 11534336, "application/pdf"⟩).alertMsg.isSome = true ∧
    (attachmentChange ⟨"report.pdf", 11534336, "application/pdf"⟩).inputCleared = true ∧
    (attachmentChange ⟨"report.pdf", 11534336, "application/pdf"⟩).readStarted = false ∧
    (attachmentChange ⟨"report.pdf", 11534336, "application/pdf"⟩).previewLoading = false :=
  c7_attachment_rejected ⟨"report.pdf", 11534336, "application/pdf"⟩ (Or.inr (by norm_num))

end LeaveForm
